import Mathlib

/-!
Shallow embedding of `mkfs-btrfs-rs` (`src/lib.rs`, `src/format.rs`):
a typed argument builder for `mkfs.btrfs`.

Rust `OsString` argument tokens are modelled as `String`; paths given to
`rootdir` / `format` are modelled as `String` in their display form.
The host filesystem boundary (`std::path::Path::try_exists`, which returns
`io::Result<bool>`) is modelled as a function `String → Option Bool`:
`none` means the existence check itself failed with an I/O error
(propagated by `?`), `some b` means the check returned `Ok(b)`.
The process boundary is modelled by returning the `Invocation` (program
name plus argument vector) that `Command::new("mkfs.btrfs").args(..)`
would spawn.
-/

/-- Error type of `lib.rs`: `IoError` wraps an OS error (modelled by the
offending path / message), `ArgumentError` carries a message. -/
inductive Error where
  | IoError (e : String)
  | ArgumentError (msg : String)
deriving DecidableEq

/-- Rust `Result<T> = Result<T, crate::Error>`. -/
abbrev FmtResult (α : Type) := Except Error α

/-- The `DataProfile` enum of `format.rs`. -/
inductive DataProfile where
  | Raid0 | Raid1 | Raid1c3 | Raid1c4 | Raid5 | Raid6 | Raid10 | Single | Dup
deriving DecidableEq

/-- `impl Display for DataProfile` (format.rs lines 73-89). -/
def DataProfile.display : DataProfile → String
  | .Raid0 => "raid0"
  | .Raid1 => "raid1"
  | .Raid1c3 => "raid1c3"
  | .Raid1c4 => "raid1c4"
  | .Raid5 => "raid5"
  | .Raid6 => "raid6"
  | .Raid10 => "raid10"
  | .Single => "single"
  | .Dup => "dup"

/-- The `ChecksumAlgorithm` enum of `format.rs`. -/
inductive ChecksumAlgorithm where
  | Crc32c | XxHash | Sha256 | Blake2
deriving DecidableEq

/-- `impl Display for ChecksumAlgorithm` (format.rs lines 102-113). -/
def ChecksumAlgorithm.display : ChecksumAlgorithm → String
  | .Crc32c => "crc32c"
  | .XxHash => "xxhash"
  | .Sha256 => "sha256"
  | .Blake2 => "blake2"

/-- The `FormatOpt` enum of `format.rs` ("like an Option, but THICC"). -/
inductive FormatOpt where
  | None
  | List (arg : List String)
deriving DecidableEq

/-- `impl Display for FormatOpt` (format.rs lines 123-130): `None` prints
as the literal `None`, `List` joins its elements with commas. -/
def FormatOpt.display : FormatOpt → String
  | .None => "None"
  | .List arg => String.intercalate "," arg

/-- The `FormatterOptions` struct: fifteen option slots, each holding at
most one fully formatted argument token, declared in this fixed order
(format.rs lines 133-150). -/
structure FormatterOptions where
  byte_count : Option String := none
  checksum : Option String := none
  data : Option String := none
  features : Option String := none
  force : Option String := none
  label : Option String := none
  metadata : Option String := none
  mixed : Option String := none
  no_discard : Option String := none
  nodesize : Option String := none
  rootdir : Option String := none
  runtime_features : Option String := none
  sectorsize : Option String := none
  shrink : Option String := none
  uuid : Option String := none
deriving DecidableEq

/-- `Formatter::options()` — the all-empty default registry. -/
def Formatter.options : FormatterOptions := {}

/-- Setter `FormatterOptions::byte_count` (format.rs lines 163-166). -/
def FormatterOptions.set_byte_count (o : FormatterOptions) (byte_count : Nat) :
    FmtResult FormatterOptions :=
  .ok { o with byte_count := some ("--byte-count=" ++ toString byte_count) }

/-- Setter `FormatterOptions::checksum` (format.rs lines 180-183). -/
def FormatterOptions.set_checksum (o : FormatterOptions) (checksum : ChecksumAlgorithm) :
    FmtResult FormatterOptions :=
  .ok { o with checksum := some ("--checksum=" ++ checksum.display) }

/-- Setter `FormatterOptions::data` (format.rs lines 194-197). -/
def FormatterOptions.set_data (o : FormatterOptions) (data : DataProfile) :
    FmtResult FormatterOptions :=
  .ok { o with data := some ("--data=" ++ data.display) }

/-- Setter `FormatterOptions::features` (format.rs lines 210-221): collects
the iterator into a `FormatOpt::List` and renders it via its display. -/
def FormatterOptions.set_features (o : FormatterOptions) (features : List String) :
    FmtResult FormatterOptions :=
  .ok { o with features := some ("--features=" ++ (FormatOpt.List features).display) }

/-- Setter `FormatterOptions::force` (format.rs lines 232-235). -/
def FormatterOptions.set_force (o : FormatterOptions) : FmtResult FormatterOptions :=
  .ok { o with force := some "--force" }

/-- Setter `FormatterOptions::label` (format.rs lines 246-255): rejects a
label whose byte length (`str::len`, i.e. UTF-8 bytes) exceeds 255. -/
def FormatterOptions.set_label (o : FormatterOptions) (label : String) :
    FmtResult FormatterOptions :=
  if label.utf8ByteSize > 255 then
    .error (.ArgumentError ("label cannot be longer than 255 bytes: " ++
      toString label.utf8ByteSize ++ ", " ++ label))
  else
    .ok { o with label := some ("--label=" ++ label) }

/-- Setter `FormatterOptions::metadata` (format.rs lines 266-269). -/
def FormatterOptions.set_metadata (o : FormatterOptions) (metadata : DataProfile) :
    FmtResult FormatterOptions :=
  .ok { o with metadata := some ("--metadata=" ++ metadata.display) }

/-- Setter `FormatterOptions::mixed` (format.rs lines 280-283). -/
def FormatterOptions.set_mixed (o : FormatterOptions) : FmtResult FormatterOptions :=
  .ok { o with mixed := some "--mixed" }

/-- Setter `FormatterOptions::no_discard` (format.rs lines 294-297). -/
def FormatterOptions.set_no_discard (o : FormatterOptions) : FmtResult FormatterOptions :=
  .ok { o with no_discard := some "--nodiscard" }

/-- Repeated-halving test behind `is_power_of_two`, with a fuel argument
bounding the number of halvings so that the recursion is structural. -/
def pow2_fuel : Nat → Nat → Bool
  | _, 0 => false
  | _, 1 => true
  | 0, _ => false
  | (f + 1), n => n % 2 == 0 && pow2_fuel f (n / 2)

/-- Model of `usize::is_power_of_two` from the Rust standard library, whose
documented behaviour is: returns `true` if and only if `self == 2^k` for
some `k` (so `0` gives `false`). -/
def is_power_of_two (n : Nat) : Bool := pow2_fuel n n

/-- Setter `FormatterOptions::nodesize` (format.rs lines 310-319): accepts
exactly the powers of two that are at most 16384. -/
def FormatterOptions.set_nodesize (o : FormatterOptions) (nodesize : Nat) :
    FmtResult FormatterOptions :=
  if is_power_of_two nodesize && nodesize ≤ 16384 then
    .ok { o with nodesize := some ("--nodesize=" ++ toString nodesize) }
  else
    .error (.ArgumentError ("node_size ( = " ++ toString nodesize ++
      " )\nMust be a power of 2, and <= 16384"))

/-- Setter `FormatterOptions::rootdir` (format.rs lines 330-336). The Rust
code runs `rootdir.as_ref().try_exists()?;` — the `?` propagates only the
`Err` of `try_exists` (the existence check itself failing); the returned
`bool` (whether the path exists) is discarded, after which the slot is
populated unconditionally. -/
def FormatterOptions.set_rootdir (fs : String → Option Bool) (o : FormatterOptions)
    (rootdir : String) : FmtResult FormatterOptions :=
  match fs rootdir with
  | none => .error (.IoError rootdir)
  | some _ => .ok { o with rootdir := some ("--rootdir=" ++ rootdir) }

/-- Setter `FormatterOptions::runtime_features` (format.rs lines 349-363). -/
def FormatterOptions.set_runtime_features (o : FormatterOptions) (features : List String) :
    FmtResult FormatterOptions :=
  .ok { o with
    runtime_features := some ("--runtime-features=" ++ (FormatOpt.List features).display) }

/-- Setter `FormatterOptions::sectorsize` (format.rs lines 377-380). -/
def FormatterOptions.set_sectorsize (o : FormatterOptions) (sectorsize : Nat) :
    FmtResult FormatterOptions :=
  .ok { o with sectorsize := some ("--sectorsize=" ++ toString sectorsize) }

/-- Setter `FormatterOptions::shrink` (format.rs lines 392-395). -/
def FormatterOptions.set_shrink (o : FormatterOptions) : FmtResult FormatterOptions :=
  .ok { o with shrink := some "--shrink" }

/-- Setter `FormatterOptions::uuid` (format.rs lines 407-410). -/
def FormatterOptions.set_uuid (o : FormatterOptions) (uuid : String) :
    FmtResult FormatterOptions :=
  .ok { o with uuid := some ("--uuid=" ++ uuid) }

/-- `FormatterOptions::to_args` (format.rs lines 413-437): iterate the
fifteen slots in declared order, pushing the token of each populated slot. -/
def FormatterOptions.to_args (o : FormatterOptions) : List String :=
  [o.byte_count, o.checksum, o.data, o.features, o.force, o.label, o.metadata,
   o.mixed, o.no_discard, o.nodesize, o.rootdir, o.runtime_features,
   o.sectorsize, o.shrink, o.uuid].filterMap id

/-- The fifteen option slots of a registry in declared order (the list the
`to_args` loop iterates over, before skipping empty slots). -/
def FormatterOptions.slots (o : FormatterOptions) : List (Option String) :=
  [o.byte_count, o.checksum, o.data, o.features, o.force, o.label, o.metadata,
   o.mixed, o.no_discard, o.nodesize, o.rootdir, o.runtime_features,
   o.sectorsize, o.shrink, o.uuid]

/-- State-passing view of `to_args(&self)`: a shared borrow returns the
argument vector and hands the registry back unchanged. -/
def FormatterOptions.to_args_st (o : FormatterOptions) :
    List String × FormatterOptions :=
  (o.to_args, o)

/-- The `Formatter` struct: the baked argument vector. -/
structure Formatter where
  args : List String
deriving DecidableEq

/-- `FormatterOptions::build` (format.rs lines 465-468). -/
def FormatterOptions.build (o : FormatterOptions) : Formatter :=
  { args := o.to_args }

/-- An external process invocation: program name plus full argument list,
as assembled by `Command::new("mkfs.btrfs").args(self.args)`. -/
structure Invocation where
  program : String
  args : List String
deriving DecidableEq

/-- `Formatter::format` (format.rs lines 505-510): runs
`device.as_ref().try_exists()?;` (again discarding the returned `bool`),
pushes the device path as the last argument, and spawns `mkfs.btrfs` with
the resulting vector. The model returns the spawned invocation. -/
def Formatter.format (fs : String → Option Bool) (f : Formatter) (device : String) :
    FmtResult Invocation :=
  match fs device with
  | none => .error (.IoError device)
  | some _ => .ok { program := "mkfs.btrfs", args := f.args ++ [device] }

/-- One setter invocation with its argument, for reasoning about call
sequences on a registry. -/
inductive SetterCall where
  | byte_count (n : Nat)
  | checksum (c : ChecksumAlgorithm)
  | data (d : DataProfile)
  | features (xs : List String)
  | force
  | label (t : String)
  | metadata (d : DataProfile)
  | mixed
  | no_discard
  | nodesize (n : Nat)
  | rootdir (p : String)
  | runtime_features (xs : List String)
  | sectorsize (n : Nat)
  | shrink
  | uuid (t : String)
deriving DecidableEq

/-- The fifteen option slots, as names. -/
inductive Slot where
  | byte_count | checksum | data | features | force | label | metadata
  | mixed | no_discard | nodesize | rootdir | runtime_features
  | sectorsize | shrink | uuid
deriving DecidableEq

/-- The slot a setter call populates. -/
def SetterCall.slot : SetterCall → Slot
  | .byte_count _ => .byte_count
  | .checksum _ => .checksum
  | .data _ => .data
  | .features _ => .features
  | .force => .force
  | .label _ => .label
  | .metadata _ => .metadata
  | .mixed => .mixed
  | .no_discard => .no_discard
  | .nodesize _ => .nodesize
  | .rootdir _ => .rootdir
  | .runtime_features _ => .runtime_features
  | .sectorsize _ => .sectorsize
  | .shrink => .shrink
  | .uuid _ => .uuid

/-- Run one setter call on a registry. -/
def SetterCall.apply (fs : String → Option Bool) (o : FormatterOptions) :
    SetterCall → FmtResult FormatterOptions
  | .byte_count n => o.set_byte_count n
  | .checksum c => o.set_checksum c
  | .data d => o.set_data d
  | .features xs => o.set_features xs
  | .force => o.set_force
  | .label t => o.set_label t
  | .metadata d => o.set_metadata d
  | .mixed => o.set_mixed
  | .no_discard => o.set_no_discard
  | .nodesize n => o.set_nodesize n
  | .rootdir p => o.set_rootdir fs p
  | .runtime_features xs => o.set_runtime_features xs
  | .sectorsize n => o.set_sectorsize n
  | .shrink => o.set_shrink
  | .uuid t => o.set_uuid t

/-- Run a chained sequence of setter calls (each `?`-propagating failure). -/
def applyAll (fs : String → Option Bool) (o : FormatterOptions) :
    List SetterCall → FmtResult FormatterOptions
  | [] => .ok o
  | c :: cs =>
    match c.apply fs o with
    | .ok o₂ => applyAll fs o₂ cs
    | .error e => .error e

/-- With enough fuel, the repeated-halving test recognises exactly the
powers of two. -/
theorem pow2_fuel_iff : ∀ (f n : Nat), n ≤ f → (pow2_fuel f n = true ↔ ∃ k, n = 2 ^ k) := by
  intro f
  induction f with
  | zero =>
    intro n hn
    have hn0 : n = 0 := by omega
    subst hn0
    constructor
    · intro h
      simp [pow2_fuel] at h
    · rintro ⟨k, hk⟩
      have : 0 < 2 ^ k := Nat.pos_pow_of_pos k (by omega)
      omega
  | succ f ih =>
    intro n hn
    match n with
    | 0 =>
      constructor
      · intro h
        simp [pow2_fuel] at h
      · rintro ⟨k, hk⟩
        have : 0 < 2 ^ k := Nat.pos_pow_of_pos k (by omega)
        omega
    | 1 =>
      constructor
      · intro _
        exact ⟨0, rfl⟩
      · intro _
        rfl
    | (m + 2) =>
      rw [show pow2_fuel (f + 1) (m + 2) = ((m + 2) % 2 == 0 && pow2_fuel f ((m + 2) / 2)) from rfl]
      rw [Bool.and_eq_true, beq_iff_eq]
      constructor
      · rintro ⟨he, hrec⟩
        obtain ⟨k, hk⟩ := (ih ((m + 2) / 2) (by omega)).mp hrec
        refine ⟨k + 1, ?_⟩
        have hp : 2 ^ (k + 1) = 2 * 2 ^ k := by rw [Nat.pow_succ]; ring
        omega
      · rintro ⟨k, hk⟩
        match k with
        | 0 => omega
        | (k + 1) =>
          have hp : 2 ^ (k + 1) = 2 * 2 ^ k := by rw [Nat.pow_succ]; ring
          have h1 : (m + 2) % 2 = 0 := by omega
          have h2 : (m + 2) / 2 = 2 ^ k := by omega
          exact ⟨h1, (ih ((m + 2) / 2) (by omega)).mpr ⟨k, h2⟩⟩

/-- The embedded `is_power_of_two` agrees with the mathematical notion. -/
theorem is_power_of_two_iff (n : Nat) : is_power_of_two n = true ↔ ∃ k, n = 2 ^ k :=
  pow2_fuel_iff n n (Nat.le_refl n)

/-- C6: the display mappings for data/metadata profiles and for checksum
algorithms are total and produce exactly the documented lowercase
keywords: profiles map to raid0, raid1, raid1c3, raid1c4, raid5, raid6,
raid10, single, dup and checksums map to crc32c, xxhash, sha256, blake2. -/
theorem display_keywords_exact :
    DataProfile.display .Raid0 = "raid0" ∧ DataProfile.display .Raid1 = "raid1" ∧
    DataProfile.display .Raid1c3 = "raid1c3" ∧ DataProfile.display .Raid1c4 = "raid1c4" ∧
    DataProfile.display .Raid5 = "raid5" ∧ DataProfile.display .Raid6 = "raid6" ∧
    DataProfile.display .Raid10 = "raid10" ∧ DataProfile.display .Single = "single" ∧
    DataProfile.display .Dup = "dup" ∧
    ChecksumAlgorithm.display .Crc32c = "crc32c" ∧
    ChecksumAlgorithm.display .XxHash = "xxhash" ∧
    ChecksumAlgorithm.display .Sha256 = "sha256" ∧
    ChecksumAlgorithm.display .Blake2 = "blake2" ∧
    (∀ p : DataProfile, p.display ∈
      ["raid0", "raid1", "raid1c3", "raid1c4", "raid5", "raid6", "raid10", "single", "dup"]) ∧
    (∀ c : ChecksumAlgorithm, c.display ∈ ["crc32c", "xxhash", "sha256", "blake2"]) := by
  refine ⟨rfl, rfl, rfl, rfl, rfl, rfl, rfl, rfl, rfl, rfl, rfl, rfl, rfl, ?_, ?_⟩
  · intro p
    cases p <;> decide
  · intro c
    cases c <;> decide

/-- C7: the features and runtime-features setters always succeed and store
a single token: the flag name followed by the elements joined with commas
in caller order; the empty list yields the explicit empty-valued token
(`--features=` resp. `--runtime-features=`), a populated slot distinct
from an unpopulated one. -/
theorem features_join_spec :
    (∀ (o : FormatterOptions) (xs : List String),
      o.set_features xs =
        .ok { o with features := some ("--features=" ++ String.intercalate "," xs) }) ∧
    (∀ (o : FormatterOptions) (xs : List String),
      o.set_runtime_features xs =
        .ok { o with
          runtime_features := some ("--runtime-features=" ++ String.intercalate "," xs) }) ∧
    (∀ o : FormatterOptions, ∃ o₂, o.set_features [] = .ok o₂ ∧
      o₂.features = some "--features=" ∧ o₂.features ≠ none) ∧
    (∀ o : FormatterOptions, ∃ o₂, o.set_runtime_features [] = .ok o₂ ∧
      o₂.runtime_features = some "--runtime-features=" ∧ o₂.runtime_features ≠ none) :=
  ⟨fun _ _ => rfl, fun _ _ => rfl,
   fun o => ⟨_, rfl, rfl, by simp⟩,
   fun o => ⟨_, rfl, rfl, by simp⟩⟩

/-- C9: compilation is pure and non-failing: viewed as a borrowing call it
returns the registry unchanged, repeated compilation of the same registry
yields the same vector, and build bakes exactly that vector. -/
theorem to_args_pure_repeatable :
    ∀ o : FormatterOptions,
      o.to_args_st.2 = o ∧
      o.to_args_st.1 = o.to_args ∧
      o.to_args_st.2.to_args_st.1 = o.to_args_st.1 ∧
      o.build.args = o.to_args :=
  fun _ => ⟨rfl, rfl, rfl, rfl⟩

set_option maxRecDepth 4000 in
/-- C10: the twelve setters without validation always return success (their
error branch is unreachable), while label, nodesize and rootdir each have
a reachable failure. -/
theorem infallible_setters :
    (∀ (o : FormatterOptions) (n : Nat), (o.set_byte_count n).isOk = true) ∧
    (∀ (o : FormatterOptions) (c : ChecksumAlgorithm), (o.set_checksum c).isOk = true) ∧
    (∀ (o : FormatterOptions) (d : DataProfile), (o.set_data d).isOk = true) ∧
    (∀ (o : FormatterOptions) (d : DataProfile), (o.set_metadata d).isOk = true) ∧
    (∀ (o : FormatterOptions) (xs : List String), (o.set_features xs).isOk = true) ∧
    (∀ (o : FormatterOptions) (xs : List String), (o.set_runtime_features xs).isOk = true) ∧
    (∀ o : FormatterOptions, o.set_force.isOk = true) ∧
    (∀ o : FormatterOptions, o.set_mixed.isOk = true) ∧
    (∀ o : FormatterOptions, o.set_no_discard.isOk = true) ∧
    (∀ (o : FormatterOptions) (n : Nat), (o.set_sectorsize n).isOk = true) ∧
    (∀ o : FormatterOptions, o.set_shrink.isOk = true) ∧
    (∀ (o : FormatterOptions) (t : String), (o.set_uuid t).isOk = true) ∧
    (∃ (o : FormatterOptions) (t : String), (o.set_label t).isOk = false) ∧
    (∃ (o : FormatterOptions) (n : Nat), (o.set_nodesize n).isOk = false) ∧
    (∃ (fs : String → Option Bool) (o : FormatterOptions) (p : String),
      (o.set_rootdir fs p).isOk = false) :=
  ⟨fun _ _ => rfl, fun _ _ => rfl, fun _ _ => rfl, fun _ _ => rfl, fun _ _ => rfl,
   fun _ _ => rfl, fun _ => rfl, fun _ => rfl, fun _ => rfl, fun _ _ => rfl,
   fun _ => rfl, fun _ _ => rfl,
   ⟨{}, String.mk (List.replicate 256 'A'), by decide⟩,
   ⟨{}, 3, by decide⟩,
   ⟨fun _ => none, {}, "/some/dir", rfl⟩⟩

/-- C1: on a host filesystem where the existence check answers Ok(false)
for every path (no path exists), set_rootdir on a non-existent path
succeeds and populates the rootdir slot, and format on the same
non-existent target succeeds and spawns the process — the `?` after
`try_exists` discards the returned bool, so only a failing check (not a
negative one) raises an I/O error. -/
theorem rootdir_format_nonexistent_path_succeed :
    FormatterOptions.set_rootdir (fun _ => some false) {} "/nonexistent" =
      .ok { rootdir := some "--rootdir=/nonexistent" } ∧
    Formatter.options.build.format (fun _ => some false) "/nonexistent" =
      .ok { program := "mkfs.btrfs", args := ["/nonexistent"] } :=
  ⟨rfl, rfl⟩

/-- C5: on a target path that exists, format spawns mkfs.btrfs with the
compiled populated-slot tokens followed by the target path as the sole,
last positional argument. -/
theorem format_appends_target_last :
    ∀ (o : FormatterOptions) (fs : String → Option Bool) (p : String),
      fs p = some true →
      o.build.format fs p = .ok { program := "mkfs.btrfs", args := o.to_args ++ [p] } := by
  intro o fs p h
  rw [Formatter.format, h]
  rfl

/-- Witness for C5 at a concrete registry, filesystem and target path. -/
theorem format_appends_target_last_witness :
    ((fun _ => some true) : String → Option Bool) "/dev/loop0" = some true ∧
    Formatter.options.build.format (fun _ => some true) "/dev/loop0" =
      .ok { program := "mkfs.btrfs", args := ["/dev/loop0"] } :=
  ⟨rfl, format_appends_target_last Formatter.options (fun _ => some true) "/dev/loop0" rfl⟩

/-- C4: set_label fails with an ArgumentError exactly when the byte length
of the text (not its character count) exceeds 255; otherwise it stores
the token `--label=<text>`. -/
theorem set_label_spec :
    ∀ (o : FormatterOptions) (t : String),
      (t.utf8ByteSize > 255 →
        o.set_label t = .error (.ArgumentError ("label cannot be longer than 255 bytes: " ++
          toString t.utf8ByteSize ++ ", " ++ t))) ∧
      (t.utf8ByteSize ≤ 255 →
        o.set_label t = .ok { o with label := some ("--label=" ++ t) }) := by
  intro o t
  refine ⟨fun h => ?_, fun h => ?_⟩
  · rw [FormatterOptions.set_label, if_pos h]
  · rw [FormatterOptions.set_label, if_neg (by omega)]

set_option maxRecDepth 4000 in
/-- Witness for C4: a 255-byte ASCII text succeeds, and a 256-byte text of
128 two-byte characters (byte length 256, character count 128) fails. -/
theorem set_label_spec_witness :
    FormatterOptions.set_label {} (String.mk (List.replicate 255 'A')) =
      .ok { label := some ("--label=" ++ String.mk (List.replicate 255 'A')) } ∧
    FormatterOptions.set_label {} (String.mk (List.replicate 128 'é')) =
      .error (.ArgumentError ("label cannot be longer than 255 bytes: " ++
        toString (String.mk (List.replicate 128 'é')).utf8ByteSize ++ ", " ++
        String.mk (List.replicate 128 'é'))) :=
  ⟨(set_label_spec {} (String.mk (List.replicate 255 'A'))).2 (by decide),
   (set_label_spec {} (String.mk (List.replicate 128 'é'))).1 (by decide)⟩

/-- C3: set_nodesize succeeds, storing the token `--nodesize=<n>`, exactly
when n is a power of two and n ≤ 16384; otherwise it fails with an
ArgumentError. -/
theorem set_nodesize_spec :
    ∀ (o : FormatterOptions) (n : Nat),
      ((∃ k, n = 2 ^ k) ∧ n ≤ 16384 →
        o.set_nodesize n = .ok { o with nodesize := some ("--nodesize=" ++ toString n) }) ∧
      (¬((∃ k, n = 2 ^ k) ∧ n ≤ 16384) →
        o.set_nodesize n = .error (.ArgumentError ("node_size ( = " ++ toString n ++
          " )\nMust be a power of 2, and <= 16384"))) := by
  intro o n
  refine ⟨fun h => ?_, fun h => ?_⟩
  · obtain ⟨hpow, hle⟩ := h
    rw [FormatterOptions.set_nodesize, if_pos ?_]
    rw [Bool.and_eq_true, decide_eq_true_eq]
    exact ⟨(is_power_of_two_iff n).mpr hpow, hle⟩
  · rw [FormatterOptions.set_nodesize, if_neg ?_]
    rw [Bool.and_eq_true, decide_eq_true_eq]
    rintro ⟨h1, h2⟩
    exact h ⟨(is_power_of_two_iff n).mp h1, h2⟩

/-- Witness for C3 at the boundary values: 4096 and 16384 succeed, while
4097, 32768 and 0 fail with an ArgumentError. -/
theorem set_nodesize_spec_witness :
    FormatterOptions.set_nodesize {} 4096 =
      .ok { nodesize := some "--nodesize=4096" } ∧
    FormatterOptions.set_nodesize {} 16384 =
      .ok { nodesize := some "--nodesize=16384" } ∧
    FormatterOptions.set_nodesize {} 4097 =
      .error (.ArgumentError "node_size ( = 4097 )\nMust be a power of 2, and <= 16384") ∧
    FormatterOptions.set_nodesize {} 32768 =
      .error (.ArgumentError "node_size ( = 32768 )\nMust be a power of 2, and <= 16384") ∧
    FormatterOptions.set_nodesize {} 0 =
      .error (.ArgumentError "node_size ( = 0 )\nMust be a power of 2, and <= 16384") :=
  ⟨(set_nodesize_spec {} 4096).1 ⟨⟨12, by norm_num⟩, by norm_num⟩,
   (set_nodesize_spec {} 16384).1 ⟨⟨14, by norm_num⟩, by norm_num⟩,
   (set_nodesize_spec {} 4097).2 (fun ⟨hp, _⟩ =>
     absurd ((is_power_of_two_iff 4097).mpr hp) (by decide)),
   (set_nodesize_spec {} 32768).2 (fun ⟨_, hle⟩ => by omega),
   (set_nodesize_spec {} 0).2 (fun ⟨hp, _⟩ =>
     absurd ((is_power_of_two_iff 0).mpr hp) (by decide))⟩

/-- C2: any two setter-call sequences that populate the same slots with the
same final values compile to the identical argument vector, and that
vector lists the populated slots' tokens in the fixed declared slot order
(byte-count, checksum, data, features, force, label, metadata, mixed,
no-discard, nodesize, rootdir, runtime-features, sectorsize, shrink,
uuid), independent of the order in which the setters were called. -/
theorem to_args_call_order_independent :
    ∀ (fs : String → Option Bool) (s₁ s₂ : List SetterCall) (o₁ o₂ : FormatterOptions),
      applyAll fs {} s₁ = .ok o₁ →
      applyAll fs {} s₂ = .ok o₂ →
      o₁.slots = o₂.slots →
      o₁.to_args = o₂.to_args ∧ o₁.to_args = o₁.slots.filterMap id := by
  intro fs s₁ s₂ o₁ o₂ h₁ h₂ hs
  refine ⟨?_, rfl⟩
  show o₁.slots.filterMap id = o₂.slots.filterMap id
  rw [hs]

/-- Witness for C2: calling force before label and after label produces the
same registry, whose compiled vector lists the two tokens in declared
slot order. -/
theorem to_args_call_order_independent_witness :
    applyAll (fun _ => some true) {} [SetterCall.force, SetterCall.label "x"] =
      .ok { force := some "--force", label := some "--label=x" } ∧
    applyAll (fun _ => some true) {} [SetterCall.label "x", SetterCall.force] =
      .ok { force := some "--force", label := some "--label=x" } ∧
    FormatterOptions.to_args { force := some "--force", label := some "--label=x" } =
      ["--force", "--label=x"] ∧
    FormatterOptions.to_args { force := some "--force", label := some "--label=x" } =
      (FormatterOptions.slots { force := some "--force", label := some "--label=x" }).filterMap
        id :=
  ⟨rfl, rfl, rfl,
   (to_args_call_order_independent (fun _ => some true)
      [SetterCall.force, SetterCall.label "x"] [SetterCall.label "x", SetterCall.force]
      { force := some "--force", label := some "--label=x" }
      { force := some "--force", label := some "--label=x" }
      rfl rfl rfl).2⟩

/-- C8: re-setting an already-populated slot replaces its token: after a
successful setter call, a second call on the same slot behaves exactly as
it would have on the registry before the first call, so the compiled
output holds exactly one token for the slot, reflecting the last call. -/
theorem slot_reset_last_call_wins :
    ∀ (fs : String → Option Bool) (c₁ c₂ : SetterCall), c₁.slot = c₂.slot →
      ∀ (o o₁ : FormatterOptions), c₁.apply fs o = .ok o₁ →
        c₂.apply fs o₁ = c₂.apply fs o := by
  intro fs c₁ c₂ hslot o o₁ h
  cases c₁ <;> cases c₂ <;>
    first
      | (simp [SetterCall.slot] at hslot
         done)
      | (simp only [SetterCall.apply, FormatterOptions.set_byte_count,
          FormatterOptions.set_checksum, FormatterOptions.set_data,
          FormatterOptions.set_features, FormatterOptions.set_force,
          FormatterOptions.set_metadata, FormatterOptions.set_mixed,
          FormatterOptions.set_no_discard, FormatterOptions.set_runtime_features,
          FormatterOptions.set_sectorsize, FormatterOptions.set_shrink,
          FormatterOptions.set_uuid, Except.ok.injEq] at h
         subst h
         rfl)
      | (simp only [SetterCall.apply, FormatterOptions.set_label,
          FormatterOptions.set_nodesize, FormatterOptions.set_rootdir] at h ⊢
         split at h <;>
           first
             | (simp at h
                done)
             | (simp only [Except.ok.injEq] at h
                subst h
                split <;> rfl))

/-- Witness for C8: calling byte_count twice with different values leaves
the single token of the second call. -/
theorem slot_reset_last_call_wins_witness :
    SetterCall.apply (fun _ => some true) { byte_count := some "--byte-count=1" }
      (SetterCall.byte_count 2) =
      SetterCall.apply (fun _ => some true) {} (SetterCall.byte_count 2) ∧
    SetterCall.apply (fun _ => some true) {} (SetterCall.byte_count 2) =
      .ok { byte_count := some "--byte-count=2" } :=
  ⟨slot_reset_last_call_wins (fun _ => some true)
     (SetterCall.byte_count 1) (SetterCall.byte_count 2) rfl {}
     { byte_count := some "--byte-count=1" } rfl,
   rfl⟩
